import Mathlib

/-!
Verification of the IronShield Rust client (`ironshield-rs`) against its
natural-language specification.

This file shallowly embeds the parts of the source that the specification
claims speak about:

* `src/response.rs` — the JSON envelope (`ApiResponse`): `from_json`,
  `is_success`, `extract_challenge`, `extract_token`;
* `src/config.rs` — `ClientConfig`, `validate`, the `duration_serde`
  seconds encoding, and the TOML key/value round-trip used by
  `from_file` / `save_to_file`;
* `src/solve.rs` — `SolveConfig::new`, the per-batch progress callback
  body from `create_progress_callback`, and `wait_for_solution`;
* `src/request.rs` — the URL gate of `IronShieldClient::new`.

Machine integers are modelled as `Nat` / `Int` with explicit truncation
(`% 2 ^ 16` for `as u16`) where the source casts.  Fallible Rust code
returns `Except`.  External collaborators (serde deserialisation of
`IronShieldChallenge`, the reqwest HTTP client, `num_cpus::get()`, clocks)
enter as explicit parameters so every definition stays executable.
-/

/-- Shallow embedding of `serde_json::Value`.  Non-integral (floating)
numbers are not represented: every claim below only inspects numbers
through `as_u64`, which returns `None` for floats exactly as it does for
the constructors other than `num`. -/
inductive Json where
  | null : Json
  | bool (b : Bool) : Json
  | num (n : Int) : Json
  | str (s : String) : Json
  | arr (elems : List Json) : Json
  | obj (fields : List (String × Json)) : Json

/-- `serde_json::Value::get(key)`: field lookup on an object, `None` on
any other variant.  Objects are association lists with unique keys (the
image of the serde map). -/
def Json.get : Json → String → Option Json
  | .obj fields, key => fields.lookup key
  | _, _ => none

/-- `serde_json::Value::as_u64`: the number when it is an integer in
`[0, 2^64)`, otherwise `None`. -/
def Json.as_u64 : Json → Option Nat
  | .num n => if 0 ≤ n ∧ n < 2 ^ 64 then some n.toNat else none
  | _ => none

/-- `serde_json::Value::as_str`. -/
def Json.as_str : Json → Option String
  | .str s => some s
  | _ => none

/-- The variants of the `ErrorHandler` enum (`src/error.rs`,
`src/handler/error.rs`) that the embedded code constructs or that the
claims name.  Payloads that are foreign error types in Rust
(`serde_json::Error`) are carried as their message strings; the variants
never built by the embedded functions (`Api`, `NetworkError`, `Io`, …)
are omitted. -/
inductive ErrorHandler where
  | InvalidRequest (msg : String) : ErrorHandler
  | ProcessingError (msg : String) : ErrorHandler
  | SerializationError (msg : String) : ErrorHandler
  | ConfigurationError (msg : String) : ErrorHandler
  | ChallengeSolvingError (msg : String) : ErrorHandler
deriving DecidableEq

/-- `ErrorHandler::config_error` (`src/error.rs`): builds the
`ConfigurationError` variant. -/
def ErrorHandler.config_error (msg : String) : ErrorHandler :=
  ErrorHandler.ConfigurationError msg

/-- `INVALID_ENDPOINT` constant from `src/error.rs`. -/
def INVALID_ENDPOINT : String := "Endpoint must be a valid HTTPS URL"

/-- `ApiResponse` (`src/response.rs`): `status: u16`, `message: String`,
`data: Value`.  The `u16` is a `Nat` kept below `2 ^ 16` by the
truncating cast in `from_json`. -/
structure ApiResponse where
  status : Nat
  message : String
  data : Json

/-- `ApiResponse::from_json`: `status` is
`response.get("status").and_then(as_u64).unwrap_or(0) as u16` (the
`as u16` cast truncates mod `2 ^ 16`), `message` is
`response.get("message").and_then(as_str).unwrap_or("No message")`, and
the whole value is kept as `data`.  The Rust body ends in `Ok(..)` and
has no fallible step, which the `Except` result makes visible. -/
def ApiResponse.from_json (response : Json) : Except ErrorHandler ApiResponse :=
  Except.ok
    { status := ((response.get "status").bind Json.as_u64).getD 0 % 2 ^ 16
      message := ((response.get "message").bind Json.as_str).getD "No message"
      data := response }

/-- `ApiResponse::is_success`: `status == 200`. -/
def ApiResponse.is_success (r : ApiResponse) : Bool :=
  r.status == 200

/-- `ApiResponse::extract_challenge`.  Deserialisation of the challenge
payload (`serde_json::from_value::<IronShieldChallenge>`) lives in the
external `ironshield_types` crate, so it is passed in as `fromValue`;
its error is wrapped by `ErrorHandler::from` into `SerializationError`. -/
def ApiResponse.extract_challenge {α : Type} (fromValue : Json → Except String α)
    (r : ApiResponse) : Except ErrorHandler α :=
  if !r.is_success then
    Except.error (ErrorHandler.ProcessingError r.message)
  else
    match r.data.get "challenge" with
    | none => Except.error (ErrorHandler.ProcessingError
        "No \x27challenge\x27 field in API response")
    | some challenge_data => (fromValue challenge_data).mapError ErrorHandler.SerializationError

/-- `ApiResponse::extract_token`, analogous to `extract_challenge` with
the `token` field. -/
def ApiResponse.extract_token {α : Type} (fromValue : Json → Except String α)
    (r : ApiResponse) : Except ErrorHandler α :=
  if !r.is_success then
    Except.error (ErrorHandler.ProcessingError r.message)
  else
    match r.data.get "token" with
    | none => Except.error (ErrorHandler.ProcessingError
        "No \x27token\x27 field in API response")
    | some token_data => (fromValue token_data).mapError ErrorHandler.SerializationError

/-- `std::time::Duration`: whole seconds (`u64`) plus a sub-second
nanosecond part (`u32`, kept below `10 ^ 9` by construction in Rust; the
bound is irrelevant to the claims so it is not carried). -/
structure Duration where
  secs : Nat
  nanos : Nat
deriving DecidableEq

/-- `Duration::from_secs`. -/
def Duration.from_secs (s : Nat) : Duration := ⟨s, 0⟩

/-- `Duration::as_secs`. -/
def Duration.as_secs (d : Duration) : Nat := d.secs

/-- `Duration::is_zero`. -/
def Duration.is_zero (d : Duration) : Bool := d.secs == 0 && d.nanos == 0

/-- `str::starts_with` on Rust strings: character-list prefix test (for
well-formed UTF-8 the byte-level test Rust performs coincides with the
character-level one). -/
def starts_with (s p : String) : Bool :=
  p.data.isPrefixOf s.data

/-- Modelled from the spec: the `USER_AGENT` constant lives in
`src/constant.rs`, a module that is not among the provided sources.  The
spec only constrains the user agent to be a non-empty header value, so
any fixed non-empty string is faithful. -/
def USER_AGENT : String := "ironshield-client"

/-- `ClientConfig` (`src/config.rs`): base URL, optional thread-count
override, per-request timeout, user agent, verbosity flag. -/
structure ClientConfig where
  api_base_url : String
  num_threads : Option Nat
  timeout : Duration
  user_agent : String
  verbose : Bool
deriving DecidableEq

/-- `ClientConfig::default()`. -/
def ClientConfig.default : ClientConfig :=
  { api_base_url := "https://api.ironshield.cloud"
    num_threads := none
    timeout := Duration.from_secs 30
    user_agent := USER_AGENT
    verbose := false }

/-- `ClientConfig::testing()`: localhost profile on port 3000. -/
def ClientConfig.testing : ClientConfig :=
  { api_base_url := "http://localhost:3000"
    num_threads := some 1
    timeout := Duration.from_secs 5
    user_agent := USER_AGENT ++ "-test"
    verbose := false }

/-- `ClientConfig::validate` (`src/config.rs`): the early-return chain of
checks, in source order — empty URL, missing `https://` prefix, zero
timeout, `Some(0)` threads, empty user agent. -/
def ClientConfig.validate (c : ClientConfig) : Except ErrorHandler Unit :=
  if c.api_base_url = "" then
    Except.error (ErrorHandler.config_error "API base URL cannot be empty")
  else if !starts_with c.api_base_url "https://" then
    Except.error (ErrorHandler.config_error INVALID_ENDPOINT)
  else if c.timeout.is_zero then
    Except.error (ErrorHandler.config_error "Timeout must be greater than zero")
  else if c.num_threads = some 0 then
    Except.error (ErrorHandler.config_error "Number of threads must be greater than zero")
  else if c.user_agent = "" then
    Except.error (ErrorHandler.config_error "User agent cannot be empty")
  else
    Except.ok ()

/-- TOML scalar values as they appear in a serialised `ClientConfig`. -/
inductive Toml where
  | str (s : String) : Toml
  | int (n : Nat) : Toml
  | bool (b : Bool) : Toml
deriving DecidableEq

/-- Serialisation of `ClientConfig` to TOML key/value pairs, per the
serde derive in `src/config.rs`: fields in declaration order, a `None`
`num_threads` omitted from the output (toml skips `None` table entries),
and `timeout` written through `duration_serde::serialize`, i.e. as
`timeout.as_secs()`. -/
def ClientConfig.encode_toml (c : ClientConfig) : List (String × Toml) :=
  ("api_base_url", Toml.str c.api_base_url) ::
    (match c.num_threads with
      | none => []
      | some n => [("num_threads", Toml.int n)]) ++
    [("timeout", Toml.int c.timeout.as_secs),
     ("user_agent", Toml.str c.user_agent),
     ("verbose", Toml.bool c.verbose)]

/-- Deserialisation of `ClientConfig` from TOML key/value pairs, per the
serde derive: each declared field is looked up by name (`num_threads`
being `Option`, its absence yields `none`), `timeout` is read through
`duration_serde::deserialize` as `Duration::from_secs(u64)`, and — the
derive carrying no `deny_unknown_fields` attribute — keys other than the
five declared ones are ignored. -/
def ClientConfig.decode_toml (kvs : List (String × Toml)) : Except String ClientConfig :=
  match kvs.lookup "api_base_url", kvs.lookup "timeout",
      kvs.lookup "user_agent", kvs.lookup "verbose" with
  | some (Toml.str url), some (Toml.int t), some (Toml.str ua), some (Toml.bool vb) =>
      match kvs.lookup "num_threads" with
      | none => Except.ok ⟨url, none, Duration.from_secs t, ua, vb⟩
      | some (Toml.int n) => Except.ok ⟨url, some n, Duration.from_secs t, ua, vb⟩
      | some _ => Except.error "invalid value for key num_threads"
  | _, _, _, _ => Except.error "missing or ill-typed required key"

/-- The content-handling path of `ClientConfig::from_file`
(`src/config.rs`) once the file has been read: TOML-parse the content,
then `validate` it.  The Rust code wraps both failure messages through
`format!`; the exact wrapped text is not modelled because no claim
depends on it. -/
def ClientConfig.from_toml (kvs : List (String × Toml)) : Except ErrorHandler ClientConfig :=
  match ClientConfig.decode_toml kvs with
  | Except.error e =>
      Except.error (ErrorHandler.config_error ("Failed to parse TOML config file: " ++ e))
  | Except.ok c =>
      match c.validate with
      | Except.error _ =>
          Except.error (ErrorHandler.config_error "Configuration validation failed")
      | Except.ok _ => Except.ok c

/-- The URL gate of `IronShieldClient::new` (`src/request.rs`): any base
URL not starting with `https://` is rejected with
`config_error(INVALID_ENDPOINT)` before the HTTP client is built.
Building the reqwest client itself is external I/O and is not part of
the check. -/
def IronShieldClient.new_check (config : ClientConfig) : Except ErrorHandler Unit :=
  if !starts_with config.api_base_url "https://" then
    Except.error (ErrorHandler.config_error INVALID_ENDPOINT)
  else
    Except.ok ()

/-- Modelled from the spec: `IronShieldChallengeResponse` lives in the
external `ironshield_types` crate; the spec records only that it
references the challenge identity and carries a `solution` nonce that is
a signed 64-bit integer in wire form.  Only its presence as a result
payload matters to the solver claims. -/
structure IronShieldChallengeResponse where
  solution : Int
deriving DecidableEq

/-- `SolveConfig` (`src/solve.rs`). -/
structure SolveConfig where
  thread_count : Nat
  use_multithreaded : Bool
deriving DecidableEq

/-- `SolveConfig::new` (`src/solve.rs`).  `num_cpus::get()` is an
external probe of the machine and enters as the `available_cores`
argument; the rest is the source expression: with multithreading
requested the override `config.num_threads` is used when present and
otherwise `max(1, available_cores * 4 / 5)`, and without multithreading
the count is 1. -/
def SolveConfig.new (available_cores : Nat) (config : ClientConfig)
    (use_multithreaded : Bool) : SolveConfig :=
  let thread_count :=
    if use_multithreaded then
      config.num_threads.getD (max 1 (available_cores * 4 / 5))
    else 1
  { thread_count := thread_count, use_multithreaded := use_multithreaded }

/-- `wait_for_solution` (`src/solve.rs`), abstracted over completion
order: `future::select_all` surfaces worker results one at a time, so
the coordinator loop is a fold over the list of worker results in
completion order.  Each element is
`Result<Result<IronShieldChallengeResponse, ErrorHandler>, JoinError>`
(the join error carried as its message).  The first `Ok(Ok(_))` is
returned (the source also raises the `solution_found` flag and aborts
peers — behaviour captured by the trace model below); worker errors and
join errors are logged and skipped; an exhausted list yields
`ProcessingError("No solution found by any thread")`. -/
def wait_for_solution :
    List (Except String (Except ErrorHandler IronShieldChallengeResponse)) →
      Except ErrorHandler IronShieldChallengeResponse
  | [] => Except.error (ErrorHandler.ProcessingError "No solution found by any thread")
  | Except.ok (Except.ok found_solution) :: _ => Except.ok found_solution
  | Except.ok (Except.error _) :: rest => wait_for_solution rest
  | Except.error _ :: rest => wait_for_solution rest

/-- Recogniser used to state that a result is *not* the
`ChallengeSolvingError` variant. -/
def is_challenge_solving_error :
    Except ErrorHandler IronShieldChallengeResponse → Bool
  | Except.error (ErrorHandler.ChallengeSolvingError _) => true
  | _ => false

/-- One invocation of the closure built by `create_progress_callback`
(`src/solve.rs`), with the ambient state made explicit: `solution_found`
is the flag value the `load` observes, `cumulative` the counter of the worker
before the call, `elapsed_millis` the clock reading, `batch_attempts`
the argument.  Returns the new counter value and the emitted progress
event `(total, hash_rate)` — `none` when the early return fires or, for
the event only, nothing is printed in non-verbose mode; emission here
means reaching the `verbose_log!` call with the computed values. -/
def progress_callback_step (solution_found : Bool) (cumulative : Nat)
    (elapsed_millis : Nat) (batch_attempts : Nat) : Nat × Option (Nat × Nat) :=
  if solution_found then
    (cumulative, none)
  else
    let total_attempts := cumulative + batch_attempts
    let hash_rate :=
      if elapsed_millis > 0 then total_attempts * 1000 / elapsed_millis
      else total_attempts
    (total_attempts, some (total_attempts, hash_rate))

/-- The hash-rate expression of `log_solution_performance`
(`src/solve.rs`), the same shape as in the progress callback. -/
def log_solution_hash_rate (estimated_total_attempts : Nat)
    (elapsed_millis : Nat) : Nat :=
  if elapsed_millis > 0 then estimated_total_attempts * 1000 / elapsed_millis
  else estimated_total_attempts

/-- A progress event as forwarded to the observer: worker id and that
cumulative total of that worker. -/
structure ProgressEvent where
  worker_id : Nat
  total : Nat
deriving DecidableEq

/-- Shared state of one multithreaded solve invocation: the
`solution_found` atomic flag and the per-worker cumulative counters
(each `AtomicU64` owned by the callback of one worker). -/
structure SolveState where
  solution_found : Bool
  counters : Nat → Nat

/-- One atomic action in the interleaving semantics of a solve
invocation: `signal` is the coordinator
`solution_found.store(true, Relaxed)` in `wait_for_solution`; `progress
w b` is one invocation of the progress callback of worker `w` with batch size
`b`.  Coherence of the single atomic location makes program order on it
total, so an interleaved sequence of these actions captures every
execution the claims quantify over. -/
inductive SolveOp where
  | signal : SolveOp
  | progress (worker_id : Nat) (batch : Nat) : SolveOp

/-- Effect of one action on the shared state, together with the event it
emits (per `create_progress_callback`: a callback that loads
`solution_found = true` returns before touching its counter or
emitting). -/
def SolveState.step (s : SolveState) : SolveOp → SolveState × Option ProgressEvent
  | SolveOp.signal => ({ s with solution_found := true }, none)
  | SolveOp.progress w b =>
    if s.solution_found then (s, none)
    else
      let total := s.counters w + b
      ({ s with counters := fun i => if i = w then total else s.counters i },
        some ⟨w, total⟩)

/-- Run of an interleaved action sequence from a state: final state and
the list of emitted progress events in order. -/
def SolveState.run (s : SolveState) : List SolveOp → SolveState × List ProgressEvent
  | [] => (s, [])
  | op :: ops =>
    let (s1, ev) := s.step op
    let (s2, evs) := s1.run ops
    (s2, ev.toList ++ evs)

/-- C1. The claim asserts that every non-`Ok` outcome of
`extract_challenge` is a `ProcessingError` carrying the envelope
field `message`.  False: on a `status = 200` envelope with no `challenge`
field the error message is the fixed text `No ... field in API
response` naming the missing field, not the envelope message "ok".
(Concrete envelope: status 200, message "ok", no challenge field.) -/
theorem extract_challenge_missing_field_message_cex :
    ApiResponse.from_json (Json.obj [("status", Json.num 200), ("message", Json.str "ok")])
      = Except.ok
          { status := 200
            message := "ok"
            data := Json.obj [("status", Json.num 200), ("message", Json.str "ok")] } ∧
    ApiResponse.extract_challenge (fun _ => Except.ok ())
        { status := 200
          message := "ok"
          data := Json.obj [("status", Json.num 200), ("message", Json.str "ok")] }
      = Except.error (ErrorHandler.ProcessingError
          "No \x27challenge\x27 field in API response") ∧
    ("No \x27challenge\x27 field in API response" : String) ≠ "ok" :=
  ⟨rfl, rfl, by decide⟩

/-- C1 (amended).  `extract_challenge` returns `Ok` iff `status = 200`
and the `challenge` field is present and parses; a non-200 status yields
`ProcessingError` carrying the envelope `message`; a 200 status with
the `challenge` field absent yields `ProcessingError` carrying the fixed
text `No ... field in API response` naming the missing field; a present
but unparseable `challenge` yields `SerializationError` wrapping the
deserialisation error. -/
theorem extract_challenge_cases {α : Type} (fromValue : Json → Except String α)
    (r : ApiResponse) :
    (r.status ≠ 200 →
      r.extract_challenge fromValue = Except.error (ErrorHandler.ProcessingError r.message)) ∧
    (r.status = 200 → r.data.get "challenge" = none →
      r.extract_challenge fromValue = Except.error (ErrorHandler.ProcessingError
        "No \x27challenge\x27 field in API response")) ∧
    (∀ cd e, r.status = 200 → r.data.get "challenge" = some cd →
      fromValue cd = Except.error e →
      r.extract_challenge fromValue = Except.error (ErrorHandler.SerializationError e)) ∧
    (∀ cd a, r.status = 200 → r.data.get "challenge" = some cd →
      fromValue cd = Except.ok a →
      r.extract_challenge fromValue = Except.ok a) := by
  refine ⟨fun h => ?_, fun h hc => ?_, fun cd e h hc hp => ?_, fun cd a h hc hp => ?_⟩
  · simp [ApiResponse.extract_challenge, ApiResponse.is_success, h]
  · simp [ApiResponse.extract_challenge, ApiResponse.is_success, h, hc]
  · simp [ApiResponse.extract_challenge, ApiResponse.is_success, h, hc, hp, Except.mapError]
  · simp [ApiResponse.extract_challenge, ApiResponse.is_success, h, hc, hp, Except.mapError]

/-- C1 (witness): the four branches of `extract_challenge_cases` at
concrete responses. -/
theorem extract_challenge_cases_witness :
    ApiResponse.extract_challenge (fun _ => Except.ok ())
        { status := 404, message := "nope", data := Json.null }
      = Except.error (ErrorHandler.ProcessingError "nope") ∧
    ApiResponse.extract_challenge (fun _ => Except.ok ())
        { status := 200, message := "ok", data := Json.obj [] }
      = Except.error (ErrorHandler.ProcessingError
          "No \x27challenge\x27 field in API response") ∧
    ApiResponse.extract_challenge
        (fun _ => (Except.error "bad json" : Except String Unit))
        { status := 200, message := "ok", data := Json.obj [("challenge", Json.null)] }
      = Except.error (ErrorHandler.SerializationError "bad json") ∧
    ApiResponse.extract_challenge (fun _ => Except.ok ())
        { status := 200, message := "ok", data := Json.obj [("challenge", Json.null)] }
      = Except.ok () :=
  ⟨(extract_challenge_cases _ _).1 (by decide),
   (extract_challenge_cases _ _).2.1 rfl rfl,
   (extract_challenge_cases _ _).2.2.1 Json.null "bad json" rfl rfl rfl,
   (extract_challenge_cases _ _).2.2.2 Json.null () rfl rfl rfl⟩

/-- C10.  `from_json` never errors: every JSON value yields an
`ApiResponse`, with a missing or non-`u64` `status` defaulting to 0, a
missing or non-string `message` defaulting to "No message", and on such a
malformed envelope (both fields missing) `extract_challenge` and
`extract_token` return `ProcessingError("No message")` for every
deserialiser. -/
theorem from_json_total_and_defaults {α β : Type} (pc : Json → Except String α)
    (pt : Json → Except String β) (v : Json) :
    ∃ r, ApiResponse.from_json v = Except.ok r ∧
      ((v.get "status").bind Json.as_u64 = none → r.status = 0) ∧
      ((v.get "message").bind Json.as_str = none → r.message = "No message") ∧
      ((v.get "status").bind Json.as_u64 = none →
       (v.get "message").bind Json.as_str = none →
        r.extract_challenge pc = Except.error (ErrorHandler.ProcessingError "No message") ∧
        r.extract_token pt = Except.error (ErrorHandler.ProcessingError "No message")) := by
  refine ⟨_, rfl, fun hs => ?_, fun hm => ?_, fun hs hm => ?_⟩
  · simp [hs]
  · simp [hm]
  · constructor <;>
      simp [ApiResponse.extract_challenge, ApiResponse.extract_token,
        ApiResponse.is_success, hs, hm]

/-- C10 (witness): `from_json_total_and_defaults` at the malformed
envelope `"oops"` (a bare JSON string). -/
theorem from_json_total_and_defaults_witness :
    ∃ r, ApiResponse.from_json (Json.str "oops") = Except.ok r ∧
      r.status = 0 ∧ r.message = "No message" ∧
      r.extract_challenge (fun _ => Except.ok ())
        = Except.error (ErrorHandler.ProcessingError "No message") ∧
      r.extract_token (fun _ => Except.ok ())
        = Except.error (ErrorHandler.ProcessingError "No message") := by
  obtain ⟨r, h1, h2, h3, h4⟩ :=
    from_json_total_and_defaults (fun _ => Except.ok ()) (fun _ => Except.ok ())
      (Json.str "oops")
  exact ⟨r, h1, h2 rfl, h3 rfl, (h4 rfl rfl).1, (h4 rfl rfl).2⟩

/-- C2.  With multithreading requested, `SolveConfig::new` derives
`thread_count = max(1, available_cores * 4 / 5)` when `num_threads` is
unset and uses the override unchanged when it is set. -/
theorem solve_config_thread_count (available_cores : Nat) (config : ClientConfig) :
    (config.num_threads = none →
      (SolveConfig.new available_cores config true).thread_count
        = max 1 (available_cores * 4 / 5)) ∧
    (∀ n, config.num_threads = some n →
      (SolveConfig.new available_cores config true).thread_count = n) := by
  refine ⟨fun h => ?_, fun n h => ?_⟩ <;> simp [SolveConfig.new, h]

/-- C2 (witness): 8 detected cores and no override give
`max 1 (8 * 4 / 5) = 6` threads; an override of 1 is kept. -/
theorem solve_config_thread_count_witness :
    (SolveConfig.new 8 ClientConfig.default true).thread_count = max 1 (8 * 4 / 5) ∧
    (SolveConfig.new 8 ClientConfig.testing true).thread_count = 1 :=
  ⟨(solve_config_thread_count 8 ClientConfig.default).1 rfl,
   (solve_config_thread_count 8 ClientConfig.testing).2 1 rfl⟩

/-- C3. The claim names the `ChallengeSolvingError / NoSolution` kind of
the error taxonomy.  False: when every worker fails (here one worker,
failing with a `ProcessingError`), the coordinator returns
`ProcessingError("No solution found by any thread")` — not the (unused)
`ChallengeSolvingError` variant. -/
theorem wait_for_solution_variant_cex :
    wait_for_solution
        [Except.ok (Except.error (ErrorHandler.ProcessingError "Thread 0 failed: boom"))]
      = Except.error (ErrorHandler.ProcessingError "No solution found by any thread") ∧
    is_challenge_solving_error
        (wait_for_solution
          [Except.ok (Except.error (ErrorHandler.ProcessingError "Thread 0 failed: boom"))])
      = false :=
  ⟨rfl, rfl⟩

/-- C3 (amended).  When no worker result in completion order is a
success, the coordinator returns
`ErrorHandler::ProcessingError("No solution found by any thread")` — the
no-solution error of the code, carried by the `ProcessingError` variant
rather than by `ChallengeSolvingError`. -/
theorem wait_for_solution_no_success
    (results : List (Except String (Except ErrorHandler IronShieldChallengeResponse)))
    (h : ∀ r ∈ results, ∀ sol, r ≠ Except.ok (Except.ok sol)) :
    wait_for_solution results
      = Except.error (ErrorHandler.ProcessingError "No solution found by any thread") := by
  induction results with
  | nil => rfl
  | cons r rest ih =>
    have hrest : ∀ x ∈ rest, ∀ sol, x ≠ Except.ok (Except.ok sol) :=
      fun x hx => h x (List.mem_cons_of_mem r hx)
    match r with
    | Except.error _ => exact ih hrest
    | Except.ok (Except.error _) => exact ih hrest
    | Except.ok (Except.ok sol) =>
        exact absurd rfl (h _ (List.mem_cons_self _ _) sol)

/-- C3 (witness): `wait_for_solution_no_success` on a two-element
completion order (one join error, one worker error). -/
theorem wait_for_solution_no_success_witness :
    wait_for_solution
        [Except.error "task cancelled",
         Except.ok (Except.error (ErrorHandler.ProcessingError "Thread 1 failed: oops"))]
      = Except.error (ErrorHandler.ProcessingError "No solution found by any thread") :=
  wait_for_solution_no_success _ (by
    intro r hr sol
    simp only [List.mem_cons] at hr
    rcases hr with h | h | h
    · simp [h]
    · simp [h]
    · exact absurd h (List.not_mem_nil r))

/-- C4.  Cancellation is monotonic and silences progress: (a) no single
action ever clears a raised `solution_found` flag — so along every run
the flag transitions false→true at most once and never back; (b) from
any state in which the flag is raised (in particular from the point at
which the callback of a worker observes it `true` and returns early), the
remainder of the run emits no progress events at all. -/
theorem solution_found_monotone_and_silent (s : SolveState) (ops : List SolveOp) :
    (∀ op, s.solution_found = true → (s.step op).1.solution_found = true) ∧
    (s.solution_found = true →
      (s.run ops).1.solution_found = true ∧ (s.run ops).2 = []) := by
  constructor
  · intro op h
    cases op with
    | signal => rfl
    | progress w b => simp [SolveState.step, h]
  · intro h
    induction ops generalizing s with
    | nil => exact ⟨h, rfl⟩
    | cons op ops ih =>
      cases op with
      | signal =>
        have := ih { s with solution_found := true } rfl
        simpa [SolveState.run, SolveState.step] using this
      | progress w b =>
        have := ih s h
        simpa [SolveState.run, SolveState.step, h] using this

/-- C4 (witness): from a state with the flag raised, a run with a
pending signal and two worker callbacks keeps the flag and emits
nothing. -/
theorem solution_found_monotone_and_silent_witness :
    ((SolveState.mk true fun _ => 0).step SolveOp.signal).1.solution_found = true ∧
    ((SolveState.mk true fun _ => 0).run
        [SolveOp.progress 0 16384, SolveOp.signal, SolveOp.progress 1 16384]).1.solution_found
      = true ∧
    ((SolveState.mk true fun _ => 0).run
        [SolveOp.progress 0 16384, SolveOp.signal, SolveOp.progress 1 16384]).2 = [] := by
  have h := solution_found_monotone_and_silent (SolveState.mk true fun _ => 0)
    [SolveOp.progress 0 16384, SolveOp.signal, SolveOp.progress 1 16384]
  exact ⟨h.1 SolveOp.signal rfl, (h.2 rfl).1, (h.2 rfl).2⟩

/-- C5. The claim states the emitted hash rate always equals
`total * 1000 / max(1, elapsed_ms)`, in particular `total * 1000` at
`elapsed_ms = 0`.  The code adds the batch to the counter as claimed,
but at `elapsed_ms = 0` it emits `total` itself (here 5), not
`total * 1000 / max(1, 0) = 5000` — even though its own comment says to
"assume 1ms", which is exactly the claimed formula. -/
theorem progress_callback_zero_elapsed_divergence :
    progress_callback_step false 0 0 5 = (5, some (5, 5)) ∧
    5 * 1000 / max 1 0 = 5000 ∧
    (5 : Nat) ≠ 5000 ∧
    log_solution_hash_rate 5 0 = 5 :=
  ⟨rfl, rfl, by decide, rfl⟩

/-- C6. The claim asserts `parse(serialise(c)) = c` for every valid `c`
including the timeout.  False: `timeout` travels as whole seconds
(`duration_serde`), so a valid configuration whose timeout has a
sub-second part — here 30 s + 500 ms, which `validate` accepts — comes
back truncated to 30 s and the round-trip is not the identity. -/
theorem config_roundtrip_subsecond_cex :
    (ClientConfig.mk "https://api.ironshield.cloud" none ⟨30, 500000000⟩
        "ironshield-client" false).validate = Except.ok () ∧
    ClientConfig.decode_toml (ClientConfig.encode_toml
        (ClientConfig.mk "https://api.ironshield.cloud" none ⟨30, 500000000⟩
          "ironshield-client" false))
      = Except.ok (ClientConfig.mk "https://api.ironshield.cloud" none ⟨30, 0⟩
          "ironshield-client" false) ∧
    ClientConfig.mk "https://api.ironshield.cloud" none ⟨30, 0⟩ "ironshield-client" false
      ≠ ClientConfig.mk "https://api.ironshield.cloud" none ⟨30, 500000000⟩
          "ironshield-client" false :=
  ⟨rfl, rfl, by decide⟩

/-- C6 (amended).  For every configuration that passes `validate` and
whose timeout is a whole number of seconds, deserialising the serialised
TOML key/value form yields the configuration exactly; the timeout is
encoded as integer seconds on the wire. -/
theorem config_roundtrip_whole_seconds (c : ClientConfig)
    (hv : c.validate = Except.ok ()) (hn : c.timeout.nanos = 0) :
    ClientConfig.decode_toml (ClientConfig.encode_toml c) = Except.ok c := by
  obtain ⟨url, nt, ⟨secs, nanos⟩, ua, vb⟩ := c
  obtain rfl : nanos = 0 := hn
  cases nt with
  | none =>
    simp [ClientConfig.encode_toml, ClientConfig.decode_toml, List.lookup,
      Duration.as_secs, Duration.from_secs]
  | some n =>
    simp [ClientConfig.encode_toml, ClientConfig.decode_toml, List.lookup,
      Duration.as_secs, Duration.from_secs]

/-- C6 (witness): `config_roundtrip_whole_seconds` at the default
configuration (30 s timeout). -/
theorem config_roundtrip_whole_seconds_witness :
    ClientConfig.decode_toml (ClientConfig.encode_toml ClientConfig.default)
      = Except.ok ClientConfig.default :=
  config_roundtrip_whole_seconds ClientConfig.default rfl rfl

/-- C7.  `validate` rejects a base URL without the `https://` prefix, a
zero timeout, and `num_threads = Some(0)`; a configuration violating
none of the constraints — `https://`-prefixed non-empty URL, non-zero
timeout, no zero thread override, non-empty user agent — passes. -/
theorem validate_cases (c : ClientConfig) :
    (starts_with c.api_base_url "https://" = false →
      ∃ e, c.validate = Except.error e) ∧
    (c.timeout.is_zero = true → ∃ e, c.validate = Except.error e) ∧
    (c.num_threads = some 0 → ∃ e, c.validate = Except.error e) ∧
    (c.api_base_url ≠ "" → starts_with c.api_base_url "https://" = true →
      c.timeout.is_zero = false → c.num_threads ≠ some 0 → c.user_agent ≠ "" →
      c.validate = Except.ok ()) := by
  unfold ClientConfig.validate
  refine ⟨fun h => ?_, fun h => ?_, fun h => ?_, fun h1 h2 h3 h4 h5 => ?_⟩
  · split_ifs <;> first | exact ⟨_, rfl⟩ | simp_all
  · split_ifs <;> exact ⟨_, rfl⟩
  · split_ifs <;> exact ⟨_, rfl⟩
  · simp [h1, h2, h3, h4, h5]

/-- C7 (witness): the four branches of `validate_cases` at concrete
configurations — the localhost testing profile fails the prefix check, a
zero timeout fails, a `Some(0)` thread override fails, and the default
configuration passes. -/
theorem validate_cases_witness :
    (∃ e, ClientConfig.testing.validate = Except.error e) ∧
    (∃ e, (ClientConfig.mk "https://x" none ⟨0, 0⟩ "ua" false).validate
      = Except.error e) ∧
    (∃ e, (ClientConfig.mk "https://x" (some 0) ⟨30, 0⟩ "ua" false).validate
      = Except.error e) ∧
    ClientConfig.default.validate = Except.ok () :=
  ⟨(validate_cases ClientConfig.testing).1 rfl,
   (validate_cases _).2.1 rfl,
   (validate_cases _).2.2.1 rfl,
   (validate_cases ClientConfig.default).2.2.2 (by decide) rfl rfl (by decide) (by decide)⟩

/-- C8. The claim asserts that `IronShieldClient::new` on
`ClientConfig::testing()` (base URL `http://localhost:3000`) succeeds.
False: the URL gate of the constructor rejects every base URL that does not
start with `https://`, the localhost testing profile included, with
`ConfigurationError(INVALID_ENDPOINT)`. -/
theorem testing_config_rejected_by_client :
    ClientConfig.testing.api_base_url = "http://localhost:3000" ∧
    starts_with ClientConfig.testing.api_base_url "http://localhost:" = true ∧
    IronShieldClient.new_check ClientConfig.testing
      = Except.error (ErrorHandler.ConfigurationError INVALID_ENDPOINT) :=
  ⟨rfl, rfl, rfl⟩

/-- Appending an entry under a fresh key does not change lookups of
other keys. -/
theorem lookup_append_single_ne (kvs : List (String × Toml)) (k key : String)
    (v : Toml) (h : key ≠ k) :
    (kvs ++ [(k, v)]).lookup key = kvs.lookup key := by
  induction kvs with
  | nil =>
    have hb : (key == k) = false := beq_eq_false_iff_ne.mpr h
    simp [List.lookup, hb]
  | cons a t ih =>
    obtain ⟨ak, av⟩ := a
    by_cases hk : (key == ak) = true
    · simp [List.lookup, hk]
    · simp only [Bool.not_eq_true] at hk
      simp [List.lookup, hk, ih]

/-- C9. The claim asserts that a TOML content with a key outside the
five defined options makes `from_file` return an error.  False: the
serde derive on `ClientConfig` carries no `deny_unknown_fields`, so
unknown keys are silently ignored — the serialised default configuration
with an extra `unknown_key` entry still parses and validates to the
default configuration. -/
theorem from_toml_unknown_key_ignored_cex :
    ClientConfig.from_toml
        (ClientConfig.encode_toml ClientConfig.default ++ [("unknown_key", Toml.str "x")])
      = Except.ok ClientConfig.default :=
  rfl

/-- C9 (amended).  A key that is none of the five defined options is
silently ignored: the parse step of `from_file` behaves on the extended content
exactly as on the content without that key, rather than rejecting it. -/
theorem from_toml_ignores_unknown_keys (kvs : List (String × Toml)) (k : String)
    (v : Toml)
    (h : k ∉ ["api_base_url", "num_threads", "timeout", "user_agent", "verbose"]) :
    ClientConfig.from_toml (kvs ++ [(k, v)]) = ClientConfig.from_toml kvs := by
  simp only [List.mem_cons, List.not_mem_nil, or_false, not_or] at h
  obtain ⟨h1, h2, h3, h4, h5⟩ := h
  have e1 := lookup_append_single_ne kvs k "api_base_url" v (Ne.symm h1)
  have e2 := lookup_append_single_ne kvs k "num_threads" v (Ne.symm h2)
  have e3 := lookup_append_single_ne kvs k "timeout" v (Ne.symm h3)
  have e4 := lookup_append_single_ne kvs k "user_agent" v (Ne.symm h4)
  have e5 := lookup_append_single_ne kvs k "verbose" v (Ne.symm h5)
  have hd : ClientConfig.decode_toml (kvs ++ [(k, v)]) = ClientConfig.decode_toml kvs := by
    simp only [ClientConfig.decode_toml, e1, e2, e3, e4, e5]
  simp only [ClientConfig.from_toml, hd]

/-- C9 (witness): `from_toml_ignores_unknown_keys` on the serialised
default configuration extended with an `extra` key. -/
theorem from_toml_ignores_unknown_keys_witness :
    ClientConfig.from_toml
        (ClientConfig.encode_toml ClientConfig.default ++ [("extra", Toml.int 7)])
      = ClientConfig.from_toml (ClientConfig.encode_toml ClientConfig.default) :=
  from_toml_ignores_unknown_keys _ "extra" (Toml.int 7) (by decide)
